import Mathlib

/-!
A verification development for the AI Video Studio single-page application
(`src/index.tsx`, plus the earlier variant `src/unnamed/part_000`).

The meaningful logic of the app is shallowly embedded here:

* `generateContent` — the generation poller (submit, poll loop with progress
  callback, completion checks, authenticated video download).  Network
  behaviour is supplied as explicit inputs: the result of the initial
  `ai.models.generateVideos` call, the list of successive
  `ai.operations.getVideosOperation` results, and the final `fetch` outcome.
  The progress callback is modelled by returning the ordered list of percents
  it was invoked with.
* `addVideoToLibrary` / `getAllVideos` — the IndexedDB-backed library store,
  modelled as an optional `Store` value (`none` = DB not initialized) holding
  the records in auto-increment key order (which is insertion order).
* `sortVideos` — the in-memory sort performed by `loadVideosFromLibrary`.
* `classifyError` — the error-message classification done by the
  generate-button click handler's catch block.
* `submitFlow` — the persistence-relevant control flow of the generate-button
  click handler (generation, thumbnail capture, library write).
-/

namespace VideoStudio

/-- JS string truthiness: `s || d` where `s` is a possibly-absent string
field (`undefined` and `""` are falsy). -/
def jsOrStr (s : Option String) (d : String) : String :=
  match s with
  | none => d
  | some m => if m = "" then d else m

/-- A generated-video descriptor (`operation.response.generatedVideos[i]`);
only the download URI is relevant. -/
structure GeneratedVideo where
  uri : String
deriving DecidableEq

/-- The embedded operation error object (`operation.error`); its `message`
field may be absent. -/
structure OpError where
  message : Option String
deriving DecidableEq

/-- An operation handle as observed by the poller.  `progressPercent` models
`Number(operation.metadata?.progressPercent)` (absent metadata or field gives
the JS-falsy default 0); `generatedVideos` models
`operation.response?.generatedVideos` (`none` covers an absent `response` or
an absent list). -/
structure Operation where
  done : Bool
  progressPercent : Option Int
  generatedVideos : Option (List GeneratedVideo)
  error : Option OpError
deriving DecidableEq

/-- `Number(operation.metadata?.progressPercent) || 0`. -/
def progressOf (op : Operation) : Int :=
  op.progressPercent.getD 0

/-- How the poll loop of `generateContent` ended. -/
inductive PollEnd where
  | reached (op : Operation)
  | failedFetch (msg : String)
  | exhausted
deriving DecidableEq

/-- The poll loop of `generateContent`: while the operation is not done, the
progress callback is invoked with the current percent, the loop sleeps 5 s
(`delay(5000)`, irrelevant here) and the handle is re-fetched.  `fetches`
lists the successive `getVideosOperation` outcomes (`Except.error` = that
network call rejected).  Returns the percents passed to the callback, in
order, and how the loop ended (`exhausted` = the supplied fetch trace ran out
while the loop was still going). -/
def pollEvents (op : Operation) (fetches : List (Except String Operation)) :
    List Int × PollEnd :=
  match op.done, fetches with
  | true, _ => ([], .reached op)
  | false, [] => ([progressOf op], .exhausted)
  | false, .error msg :: _ => ([progressOf op], .failedFetch msg)
  | false, .ok op2 :: rest =>
    let r := pollEvents op2 rest
    (progressOf op :: r.1, r.2)

/-- The outcome of the final authenticated video `fetch`. -/
inductive FetchResult where
  | netError (msg : String)
  | response (ok : Bool) (statusText : String) (errMsg : Option String)
      (body : List Nat)
deriving DecidableEq

/-- How `generateContent` finishes: resolve with the video blob (a byte
list), reject with an error message, or — only when the supplied fetch trace
is too short — still be polling. -/
inductive GenOutcome where
  | resolved (blob : List Nat)
  | failed (msg : String)
  | stillPolling
deriving DecidableEq

/-- The failure thrown when `generatedVideos` is absent or empty:
`operation.error.message || 'Video generation failed with an unknown
error.'` when an embedded error exists, else `'No videos generated'`. -/
def noVideosFailure (op : Operation) : GenOutcome :=
  match op.error with
  | some e => .failed (jsOrStr e.message "Video generation failed with an unknown error.")
  | none => .failed "No videos generated"

/-- The generation poller `generateContent` of `src/index.tsx`.  `apiKey` is
the module-level key (`none` = unset; `""` is also JS-falsy).  `submit` is
the outcome of `ai.models.generateVideos`, `fetches` the successive
`getVideosOperation` outcomes, `download` the final `fetch` outcome.  Returns
the ordered percents passed to `onProgress` and the outcome. -/
def generateContent (apiKey : Option String) (submit : Except String Operation)
    (fetches : List (Except String Operation)) (download : FetchResult) :
    List Int × GenOutcome :=
  if apiKey.getD "" = "" then
    ([], .failed "API Key is not set. Please configure it in the settings.")
  else
    match submit with
    | .error msg => ([], .failed msg)
    | .ok op0 =>
      match pollEvents op0 fetches with
      | (evs, .exhausted) => (evs, .stillPolling)
      | (evs, .failedFetch msg) => (evs, .failed msg)
      | (evs, .reached op) =>
        match op.generatedVideos with
        | none => (evs ++ [100], noVideosFailure op)
        | some [] => (evs ++ [100], noVideosFailure op)
        | some (_ :: _) =>
          match download with
          | .netError msg => (evs ++ [100], .failed msg)
          | .response ok statusText errMsg body =>
            if ok then (evs ++ [100], .resolved body)
            else
              (evs ++ [100],
                .failed (jsOrStr errMsg ("Failed to fetch video: " ++ statusText)))

/-- A library record (`VideoRecord`); blobs are byte lists, `timestamp` is
`Date.now()` milliseconds, `id` is assigned by the store. -/
structure VideoRecord where
  id : Option Nat
  prompt : String
  videoBlob : List Nat
  thumbnailBlob : List Nat
  timestamp : Int
deriving DecidableEq

/-- The `videos` object store of the `AIVideoStudioDB` IndexedDB database:
an auto-increment key counter plus the stored records in key order (IndexedDB
`getAll` returns records in ascending key order, i.e. insertion order for an
auto-increment store). -/
structure Store where
  nextId : Nat
  records : List VideoRecord
deriving DecidableEq

/-- `addVideoToLibrary` of `src/index.tsx`: rejects with `'DB not
initialized'` when the database handle is unset, otherwise `store.add`
assigns the next auto-increment id and commits. -/
def addVideoToLibrary (db : Option Store) (r : VideoRecord) :
    Except String Store :=
  match db with
  | none => .error "DB not initialized"
  | some s =>
    .ok { nextId := s.nextId + 1,
          records := s.records ++ [{ r with id := some s.nextId }] }

/-- `getAllVideos` of `src/index.tsx`: `store.getAll()`, records in key
(= insertion) order. -/
def getAllVideos (db : Option Store) : Except String (List VideoRecord) :=
  match db with
  | none => .error "DB not initialized"
  | some s => .ok s.records

/-- `getAllVideos` of `src/unnamed/part_000`: identical except the result is
`.reverse()`d (source comment: `// Show newest first`). -/
def getAllVideosNewestFirst (db : Option Store) :
    Except String (List VideoRecord) :=
  match db with
  | none => .error "DB not initialized"
  | some s => .ok s.records.reverse

/-- Timestamp comparison used by the `'oldest'` branch of
`loadVideosFromLibrary` (`(a, b) => a.timestamp - b.timestamp`). -/
def tsLe (a b : VideoRecord) : Prop :=
  a.timestamp ≤ b.timestamp

instance : DecidableRel tsLe := fun a b => Int.decLe a.timestamp b.timestamp

instance : IsTotal VideoRecord tsLe := ⟨fun a b => Int.le_total a.timestamp b.timestamp⟩

instance : IsTrans VideoRecord tsLe := ⟨fun _ _ _ => Int.le_trans⟩

/-- Timestamp comparison used by the `'newest'` branch
(`(a, b) => b.timestamp - a.timestamp`). -/
def tsGe (a b : VideoRecord) : Prop :=
  b.timestamp ≤ a.timestamp

instance : DecidableRel tsGe := fun a b => Int.decLe b.timestamp a.timestamp

/-- Prompt comparison used by the `'name'` branch
(`a.prompt.localeCompare(b.prompt)`), modelled as lexicographic string
order. -/
def promptLe (a b : VideoRecord) : Prop :=
  a.prompt ≤ b.prompt

instance : DecidableRel promptLe := fun a b =>
  inferInstanceAs (Decidable (a.prompt ≤ b.prompt))

/-- The in-memory sorting step of `loadVideosFromLibrary`: a stable
comparison sort (JS `Array.prototype.sort` is required to be stable) keyed by
the current sort order; an unknown order leaves the list untouched. -/
def sortVideos (order : String) (videos : List VideoRecord) :
    List VideoRecord :=
  if order = "newest" then List.insertionSort tsGe videos
  else if order = "oldest" then List.insertionSort tsLe videos
  else if order = "name" then List.insertionSort promptLe videos
  else videos

/-- Whether the character list `needle` occurs at the start of `hay`. -/
def charsStartWith : List Char → List Char → Bool
  | [], _ => true
  | _ :: _, [] => false
  | a :: as, b :: bs => a = b && charsStartWith as bs

/-- Whether the character list `needle` occurs anywhere in `hay`. -/
def charsContain (needle : List Char) : List Char → Bool
  | [] => needle.isEmpty
  | b :: bs => charsStartWith needle (b :: bs) || charsContain needle bs

/-- JS `haystack.includes(needle)`. -/
def containsSub (hay needle : String) : Bool :=
  charsContain needle.data hay.data

/-- ASCII lower-casing of one character, the mapping performed per character
by JS `toLowerCase` on the basic latin range. -/
def lowerChar (c : Char) : Char :=
  if 65 ≤ c.toNat ∧ c.toNat ≤ 90 then Char.ofNat (c.toNat + 32) else c

/-- JS `s.toLowerCase()` (ASCII model). -/
def lowerStr (s : String) : String :=
  ⟨s.data.map lowerChar⟩

/-- The user-facing friendly message for the invalid-API-key branch of the
catch block of the generate-button click handler. -/
def invalidKeyMsg : String :=
  "Your API Key is not valid. Please check it in the settings."

/-- The user-facing friendly message for the quota branch. -/
def quotaMsg : String :=
  "You have exceeded your API quota. Please check your plan and billing details."

/-- The initial default friendly message of the catch block. -/
def unknownErrorMsg : String :=
  "An unknown error occurred. Please try again."

/-- The error-message classification of the catch block of the
generate-button click handler in `src/index.tsx`.  `raw` is the caught
error's message.  `parsed` is the outcome of the external `JSON.parse(raw)`
in the fallback branch: `none` means parsing threw; `some em` means it
produced an object whose truthy `error.message` is `em` (so `some none`
covers a parse that yields no truthy `error.message`). -/
def classifyError (raw : String) (parsed : Option (Option String)) : String :=
  let lower := lowerStr raw
  if containsSub lower "api key"
      && (containsSub lower "not valid" || containsSub lower "invalid") then
    invalidKeyMsg
  else if containsSub lower "quota" then
    quotaMsg
  else
    match parsed with
    | some (some m) => m
    | some none => unknownErrorMsg
    | none => raw

/-- The observable outcome of one generate-button submission: the resulting
database state, the record persisted by it (if any), and the final status
line text. -/
structure SubmitOutcome where
  db : Option Store
  persisted : Option VideoRecord
  status : String
deriving DecidableEq

/-- The persistence-relevant control flow of the generate-button click
handler in `src/index.tsx`: run `generateContent`; on resolution the video
element's `loadeddata` callback sets the success status, captures a thumbnail
(`createThumbnail`, outcome supplied as `thumb`) and persists a new
`VideoRecord` via `addVideoToLibrary`; if thumbnail capture or the store
write rejects, the async callback aborts and nothing is persisted.  On a
`generateContent` rejection the catch block classifies the message and sets
the error status; the store is untouched.  `prompt` is the assembled
`basePrompt`, `now` is `Date.now()`, `parsed` is the `JSON.parse` oracle of
`classifyError`. -/
def submitFlow (db : Option Store) (prompt : String) (apiKey : Option String)
    (submit : Except String Operation) (fetches : List (Except String Operation))
    (download : FetchResult) (thumb : Except String (List Nat)) (now : Int)
    (parsed : Option (Option String)) : SubmitOutcome :=
  match (generateContent apiKey submit fetches download).2 with
  | .resolved blob =>
    match thumb with
    | .error _ =>
      { db := db, persisted := none, status := "Video generated successfully." }
    | .ok tb =>
      let r : VideoRecord :=
        { id := none, prompt := prompt, videoBlob := blob,
          thumbnailBlob := tb, timestamp := now }
      match addVideoToLibrary db r with
      | .ok s2 =>
        { db := some s2, persisted := some r,
          status := "Video generated successfully." }
      | .error _ =>
        { db := db, persisted := none,
          status := "Video generated successfully." }
  | .failed msg =>
    { db := db, persisted := none,
      status := "Error: " ++ classifyError msg parsed }
  | .stillPolling =>
    { db := db, persisted := none, status := "" }

/-! ### Poll-loop trace lemmas -/

/-- A handle that is already done ends the loop immediately: no loop-body
callback invocations, regardless of the supplied fetch trace. -/
theorem pollEvents_done (op : Operation) (h : op.done = true)
    (fetches : List (Except String Operation)) :
    pollEvents op fetches = ([], .reached op) := by
  cases fetches with
  | nil => simp [pollEvents, h]
  | cons f rest => cases f <;> simp [pollEvents, h]

/-- Running the loop from a not-done handle through further not-done handles
to a final done handle emits exactly one percent per not-done handle, in
order. -/
theorem pollEvents_run (op0 : Operation) (rest : List Operation)
    (fin' : Operation) (h0 : op0.done = false)
    (hrest : ∀ op ∈ rest, op.done = false) (hfin : fin'.done = true) :
    pollEvents op0 ((rest ++ [fin']).map Except.ok)
      = ((op0 :: rest).map progressOf, .reached fin') := by
  induction rest generalizing op0 with
  | nil => simp [pollEvents, h0, hfin]
  | cons q qs ih =>
    have hq := ih q (hrest q (by simp)) (fun op h => hrest op (by simp [h]))
    simp [List.map_append] at hq
    simp [pollEvents, h0, hq]

/-- An observed handle sequence `op0 :: ops` (submission returned `op0`, the
successive re-fetches returned `ops`) of the shape `pre ++ [fin']` — all of
`pre` not done, `fin'` done — drives the loop to `fin'`, emitting one percent
per element of `pre`, in order. -/
theorem pollEvents_seq (op0 : Operation) (ops : List Operation)
    (pre : List Operation) (fin' : Operation)
    (hseq : op0 :: ops = pre ++ [fin'])
    (hpre : ∀ op ∈ pre, op.done = false) (hfin : fin'.done = true) :
    pollEvents op0 (ops.map Except.ok) = (pre.map progressOf, .reached fin') := by
  cases pre with
  | nil =>
    simp only [List.nil_append, List.cons.injEq] at hseq
    obtain ⟨h1, h2⟩ := hseq
    subst h1; subst h2
    simpa using pollEvents_done op0 hfin []
  | cons p ps =>
    simp only [List.cons_append, List.cons.injEq] at hseq
    obtain ⟨h1, h2⟩ := hseq
    subst h1; subst h2
    simpa using
      pollEvents_run op0 ps fin' (hpre op0 (by simp))
        (fun op h => hpre op (by simp [h])) hfin

/-- When a status re-fetch rejects after a run of not-done handles, the loop
stops there: the percents emitted are exactly one per handle observed so far,
and nothing after the failing fetch is consumed. -/
theorem pollEvents_failRun (op0 : Operation) (rest : List Operation)
    (msg : String) (post : List (Except String Operation))
    (h0 : op0.done = false) (hrest : ∀ op ∈ rest, op.done = false) :
    pollEvents op0 (rest.map Except.ok ++ Except.error msg :: post)
      = ((op0 :: rest).map progressOf, .failedFetch msg) := by
  induction rest generalizing op0 with
  | nil => simp [pollEvents, h0]
  | cons q qs ih =>
    have hq := ih q (hrest q (by simp)) (fun op h => hrest op (by simp [h]))
    simp [pollEvents, h0, hq]

/-! ### Claim theorems -/

/-- C1: for every finite observed handle sequence ending in a done handle
(all earlier handles not done), `generateContent` invokes the progress
callback exactly once per not-done handle with that handle's metadata
`progressPercent` (coerced, defaulting to 0 when absent — `progressOf`), then
exactly once with 100 after the done handle, in that order, before resolving
with the fetched video bytes. -/
theorem generateContent_progress_trace
    (key : String) (hkey : ¬ key = "")
    (op0 : Operation) (ops : List Operation)
    (pre : List Operation) (fin' : Operation)
    (hseq : op0 :: ops = pre ++ [fin'])
    (hpre : ∀ op ∈ pre, op.done = false) (hfin : fin'.done = true)
    (v : GeneratedVideo) (vs : List GeneratedVideo)
    (hvids : fin'.generatedVideos = some (v :: vs))
    (st : String) (em : Option String) (body : List Nat) :
    generateContent (some key) (.ok op0) (ops.map Except.ok)
        (.response true st em body)
      = (pre.map progressOf ++ [100], .resolved body) := by
  have hp := pollEvents_seq op0 ops pre fin' hseq hpre hfin
  simp [generateContent, hkey, hp, hvids]

/-- Witness for C1: the spec's example sequence
[not-done(20%), not-done(60%), done(success)] yields callback percents
exactly 20, 60, 100 and resolves with the downloaded bytes. -/
theorem generateContent_progress_trace_witness :
    generateContent (some "k")
        (.ok { done := false, progressPercent := some 20,
               generatedVideos := none, error := none })
        [.ok { done := false, progressPercent := some 60,
               generatedVideos := none, error := none },
         .ok { done := true, progressPercent := none,
               generatedVideos := some [⟨"u"⟩], error := none }]
        (.response true "OK" none [7, 8])
      = ([20, 60, 100], .resolved [7, 8]) := by
  have h := generateContent_progress_trace "k" (by decide)
      { done := false, progressPercent := some 20,
        generatedVideos := none, error := none }
      [{ done := false, progressPercent := some 60,
         generatedVideos := none, error := none },
       { done := true, progressPercent := none,
         generatedVideos := some [⟨"u"⟩], error := none }]
      [{ done := false, progressPercent := some 20,
         generatedVideos := none, error := none },
       { done := false, progressPercent := some 60,
         generatedVideos := none, error := none }]
      { done := true, progressPercent := none,
        generatedVideos := some [⟨"u"⟩], error := none }
      rfl (by decide) (by decide) ⟨"u"⟩ [] rfl "OK" none [7, 8]
  simpa using h

/-- C9: when the observed sequence ends in a done handle whose
generated-video list is absent or empty, the progress callback is still
invoked with 100 — the event trace is the per-handle percents followed by
100 — and only then does `generateContent` fail. -/
theorem generateContent_final_progress_on_empty
    (key : String) (hkey : ¬ key = "")
    (op0 : Operation) (ops : List Operation)
    (pre : List Operation) (fin' : Operation)
    (hseq : op0 :: ops = pre ++ [fin'])
    (hpre : ∀ op ∈ pre, op.done = false) (hfin : fin'.done = true)
    (hempty : fin'.generatedVideos = none ∨ fin'.generatedVideos = some [])
    (download : FetchResult) :
    ∃ msg, generateContent (some key) (.ok op0) (ops.map Except.ok) download
      = (pre.map progressOf ++ [100], .failed msg) := by
  have hp := pollEvents_seq op0 ops pre fin' hseq hpre hfin
  rcases hempty with h | h <;> cases he : fin'.error with
  | none =>
    exact ⟨"No videos generated",
      by simp [generateContent, hkey, hp, h, noVideosFailure, he]⟩
  | some e =>
    exact ⟨jsOrStr e.message "Video generation failed with an unknown error.",
      by simp [generateContent, hkey, hp, h, noVideosFailure, he]⟩

/-- Witness for C9: a done handle with an empty video list after one 20%
poll step still produces the trace [20, 100] before the failure. -/
theorem generateContent_final_progress_on_empty_witness :
    generateContent (some "k")
        (.ok { done := false, progressPercent := some 20,
               generatedVideos := none, error := none })
        [.ok { done := true, progressPercent := none,
               generatedVideos := some [], error := none }]
        (.netError "unused")
      = ([20, 100], .failed "No videos generated") := by
  obtain ⟨msg, hm⟩ := generateContent_final_progress_on_empty "k" (by decide)
      { done := false, progressPercent := some 20,
        generatedVideos := none, error := none }
      [{ done := true, progressPercent := none,
         generatedVideos := some [], error := none }]
      [{ done := false, progressPercent := some 20,
         generatedVideos := none, error := none }]
      { done := true, progressPercent := none,
        generatedVideos := some [], error := none }
      rfl (by decide) (by decide) (Or.inr rfl) (.netError "unused")
  have hmsg : GenOutcome.failed msg = GenOutcome.failed "No videos generated" :=
    (congrArg Prod.snd hm).symm.trans (by decide)
  simpa [hmsg] using hm

/-- C2 counterexample: a done handle with an empty generated-video list and
an embedded error whose message is the empty string `""` does not fail with
`""` (the JS `error.message || …` fallback fires): the failure message is
the generic unknown-error text, which is not `""`. -/
theorem generateContent_empty_message_fallback :
    (generateContent (some "k")
        (.ok { done := true, progressPercent := none,
               generatedVideos := some [],
               error := some { message := some "" } })
        [] (.response true "OK" none [])).2
      = .failed "Video generation failed with an unknown error."
  ∧ ¬ ("Video generation failed with an unknown error." = "") := by
  decide

/-- C2 as amended: for every done handle whose generated-video list is
absent or empty, `generateContent` fails; when the handle carries an embedded
operation error with a nonempty message X it fails with X (an absent or empty
message gives the generic unknown-error text), and when there is no embedded
error it fails with exactly "No videos generated". -/
theorem generateContent_empty_videos_failure
    (key : String) (hkey : ¬ key = "")
    (fin' : Operation) (hfin : fin'.done = true)
    (hempty : fin'.generatedVideos = none ∨ fin'.generatedVideos = some [])
    (fetches : List (Except String Operation)) (download : FetchResult) :
    (∀ e m, fin'.error = some e → e.message = some m → ¬ m = "" →
       (generateContent (some key) (.ok fin') fetches download).2 = .failed m)
  ∧ (∀ e, fin'.error = some e → (e.message = none ∨ e.message = some "") →
       (generateContent (some key) (.ok fin') fetches download).2
         = .failed "Video generation failed with an unknown error.")
  ∧ (fin'.error = none →
       (generateContent (some key) (.ok fin') fetches download).2
         = .failed "No videos generated") := by
  have hp := pollEvents_done fin' hfin fetches
  refine ⟨?_, ?_, ?_⟩
  · intro e m he hm hne
    rcases hempty with h | h <;>
      simp [generateContent, hkey, hp, h, noVideosFailure, he, jsOrStr, hm, hne]
  · intro e he hm
    rcases hempty with h | h <;> rcases hm with hm | hm <;>
      simp [generateContent, hkey, hp, h, noVideosFailure, he, jsOrStr, hm]
  · intro he
    rcases hempty with h | h <;>
      simp [generateContent, hkey, hp, h, noVideosFailure, he]

/-- Witness for C2 (amended): a done handle with empty list and embedded
message "X" fails with "X"; one with no embedded error fails with
"No videos generated". -/
theorem generateContent_empty_videos_failure_witness :
    (generateContent (some "k")
        (.ok { done := true, progressPercent := none,
               generatedVideos := some [],
               error := some { message := some "X" } })
        [] (.netError "unused")).2 = .failed "X"
  ∧ (generateContent (some "k")
        (.ok { done := true, progressPercent := none,
               generatedVideos := none, error := none })
        [] (.netError "unused")).2 = .failed "No videos generated" := by
  constructor
  · exact (generateContent_empty_videos_failure "k" (by decide)
      { done := true, progressPercent := none,
        generatedVideos := some [], error := some { message := some "X" } }
      rfl (Or.inr rfl) [] (.netError "unused")).1
      { message := some "X" } "X" rfl rfl (by decide)
  · exact (generateContent_empty_videos_failure "k" (by decide)
      { done := true, progressPercent := none,
        generatedVideos := none, error := none }
      rfl (Or.inl rfl) [] (.netError "unused")).2.2 rfl

/-- C5 counterexample: a non-success response whose JSON body contains
`error.message` equal to the empty string `""` does not make
`generateContent` fail with `""` (the JS `… || …` fallback fires): the
failure message is "Failed to fetch video: " plus the status text. -/
theorem generateContent_fetch_empty_message_fallback :
    (generateContent (some "k")
        (.ok { done := true, progressPercent := none,
               generatedVideos := some [⟨"u"⟩], error := none })
        [] (.response false "Forbidden" (some "") [])).2
      = .failed "Failed to fetch video: Forbidden"
  ∧ ¬ ("Failed to fetch video: Forbidden" = "") := by
  decide

/-- C5 as amended: for every non-success HTTP response to the final video
fetch whose body parses as JSON containing a nonempty `error.message` M,
`generateContent` fails with exactly M (in particular status 403 with body
error message "bad key" yields exactly "bad key"); when the body carries no
`error.message` (or an empty one), it fails with "Failed to fetch video: "
followed by the response status text. -/
theorem generateContent_fetch_error_message
    (key : String) (hkey : ¬ key = "")
    (fin' : Operation) (hfin : fin'.done = true)
    (v : GeneratedVideo) (vs : List GeneratedVideo)
    (hvids : fin'.generatedVideos = some (v :: vs))
    (fetches : List (Except String Operation))
    (st : String) (em : Option String) (body : List Nat) :
    (∀ m, em = some m → ¬ m = "" →
       (generateContent (some key) (.ok fin') fetches
           (.response false st em body)).2 = .failed m)
  ∧ ((em = none ∨ em = some "") →
       (generateContent (some key) (.ok fin') fetches
           (.response false st em body)).2
         = .failed ("Failed to fetch video: " ++ st)) := by
  have hp := pollEvents_done fin' hfin fetches
  constructor
  · intro m hm hne
    simp [generateContent, hkey, hp, hvids, jsOrStr, hm, hne]
  · intro hm
    rcases hm with hm | hm <;>
      simp [generateContent, hkey, hp, hvids, jsOrStr, hm]

/-- Witness for C5 (amended): the spec's example — a 403 (non-success)
response with body error message "bad key" — fails with exactly "bad key",
and a non-success response with no body error message fails with
"Failed to fetch video: Forbidden". -/
theorem generateContent_fetch_error_message_witness :
    (generateContent (some "k")
        (.ok { done := true, progressPercent := none,
               generatedVideos := some [⟨"u"⟩], error := none })
        [] (.response false "Forbidden" (some "bad key") [])).2
      = .failed "bad key"
  ∧ (generateContent (some "k")
        (.ok { done := true, progressPercent := none,
               generatedVideos := some [⟨"u"⟩], error := none })
        [] (.response false "Forbidden" none [])).2
      = .failed "Failed to fetch video: Forbidden" := by
  constructor
  · exact (generateContent_fetch_error_message "k" (by decide)
      { done := true, progressPercent := none,
        generatedVideos := some [⟨"u"⟩], error := none }
      rfl ⟨"u"⟩ [] rfl [] "Forbidden" (some "bad key") []).1
      "bad key" rfl (by decide)
  · exact (generateContent_fetch_error_message "k" (by decide)
      { done := true, progressPercent := none,
        generatedVideos := some [⟨"u"⟩], error := none }
      rfl ⟨"u"⟩ [] rfl [] "Forbidden" none []).2 (Or.inl rfl)

/-- C7: `generateContent` performs no retry.  (i) A failed initial
submission fails immediately with that error, with no progress-callback
invocations at all.  (ii) A failed status re-fetch after a run of not-done
handles fails immediately with that error: the callback was invoked exactly
once per handle observed before the failure, and whatever re-fetch results
would come after (`post`) and the download outcome are never consumed.
(iii) A failed final download fails immediately with that error after the
single 100 progress event. -/
theorem generateContent_no_retry
    (key : String) (hkey : ¬ key = "")
    (smsg : String) (fetches0 : List (Except String Operation))
    (download0 : FetchResult)
    (op0 : Operation) (h0 : op0.done = false)
    (rest : List Operation) (hrest : ∀ op ∈ rest, op.done = false)
    (msg : String) (post : List (Except String Operation))
    (download1 : FetchResult)
    (fin' : Operation) (hfin : fin'.done = true)
    (v : GeneratedVideo) (vs : List GeneratedVideo)
    (hvids : fin'.generatedVideos = some (v :: vs))
    (fetches2 : List (Except String Operation)) (dmsg : String) :
    generateContent (some key) (.error smsg) fetches0 download0
        = ([], .failed smsg)
  ∧ generateContent (some key) (.ok op0)
        (rest.map Except.ok ++ Except.error msg :: post) download1
      = ((op0 :: rest).map progressOf, .failed msg)
  ∧ generateContent (some key) (.ok fin') fetches2 (.netError dmsg)
      = ([100], .failed dmsg) := by
  refine ⟨?_, ?_, ?_⟩
  · simp [generateContent, hkey]
  · have hp := pollEvents_failRun op0 rest msg post h0 hrest
    simp [generateContent, hkey, hp]
  · have hp := pollEvents_done fin' hfin fetches2
    simp [generateContent, hkey, hp, hvids]

/-- Witness for C7: with a 20% handle observed and the next re-fetch
rejecting with "net down", the result is exactly one 20 progress event and
the failure "net down", for concrete would-be-later fetches; the submission
and download failure conjuncts at concrete inputs. -/
theorem generateContent_no_retry_witness :
    generateContent (some "k") (.error "submit down") [] (.netError "x")
        = ([], .failed "submit down")
  ∧ generateContent (some "k")
        (.ok { done := false, progressPercent := some 20,
               generatedVideos := none, error := none })
        [Except.error "net down",
         .ok { done := true, progressPercent := none,
               generatedVideos := some [⟨"u"⟩], error := none }]
        (.response true "OK" none [1])
      = ([20], .failed "net down")
  ∧ generateContent (some "k")
        (.ok { done := true, progressPercent := none,
               generatedVideos := some [⟨"u"⟩], error := none })
        [] (.netError "dl down")
      = ([100], .failed "dl down") := by
  have h := generateContent_no_retry "k" (by decide) "submit down" [] (.netError "x")
      { done := false, progressPercent := some 20,
        generatedVideos := none, error := none }
      rfl [] (by decide) "net down"
      [.ok { done := true, progressPercent := none,
             generatedVideos := some [⟨"u"⟩], error := none }]
      (.response true "OK" none [1])
      { done := true, progressPercent := none,
        generatedVideos := some [⟨"u"⟩], error := none }
      rfl ⟨"u"⟩ [] rfl [] "dl down"
  exact ⟨h.1, by simpa using h.2.1, h.2.2⟩

/-- C3: in the submission flow, a record is persisted only when
`generateContent` resolved with a video blob and thumbnail capture
succeeded — and the persisted record is built from that blob, that
thumbnail, the prompt and the submission timestamp; on a generation failure
or a thumbnail failure nothing is persisted and the store is unchanged. -/
theorem submitFlow_persists_only_on_success
    (db : Option Store) (prompt : String) (apiKey : Option String)
    (submit : Except String Operation) (fetches : List (Except String Operation))
    (download : FetchResult) (thumb : Except String (List Nat)) (now : Int)
    (parsed : Option (Option String)) :
    (∀ r, (submitFlow db prompt apiKey submit fetches download thumb now
              parsed).persisted = some r →
       ∃ blob tb, (generateContent apiKey submit fetches download).2
             = .resolved blob
         ∧ thumb = .ok tb ∧ r.prompt = prompt ∧ r.videoBlob = blob
         ∧ r.thumbnailBlob = tb ∧ r.timestamp = now)
  ∧ (∀ msg, (generateContent apiKey submit fetches download).2 = .failed msg →
       (submitFlow db prompt apiKey submit fetches download thumb now
           parsed).persisted = none
       ∧ (submitFlow db prompt apiKey submit fetches download thumb now
           parsed).db = db)
  ∧ (∀ msg, thumb = .error msg →
       (submitFlow db prompt apiKey submit fetches download thumb now
           parsed).persisted = none
       ∧ (submitFlow db prompt apiKey submit fetches download thumb now
           parsed).db = db) := by
  refine ⟨?_, ?_, ?_⟩
  · intro r hr
    cases hg : (generateContent apiKey submit fetches download).2 with
    | failed msg => simp [submitFlow, hg] at hr
    | stillPolling => simp [submitFlow, hg] at hr
    | resolved blob =>
      cases ht : thumb with
      | error m => simp [submitFlow, hg, ht] at hr
      | ok tb =>
        cases db with
        | none => simp [submitFlow, hg, ht, addVideoToLibrary] at hr
        | some s =>
          simp only [submitFlow, hg, ht, addVideoToLibrary,
            Option.some.injEq] at hr
          refine ⟨blob, tb, rfl, rfl, ?_, ?_, ?_, ?_⟩ <;> simp [← hr]
  · intro msg hg
    exact ⟨by simp [submitFlow, hg], by simp [submitFlow, hg]⟩
  · intro msg ht
    cases hg : (generateContent apiKey submit fetches download).2 <;>
      exact ⟨by simp [submitFlow, hg, ht], by simp [submitFlow, hg, ht]⟩

/-- Witness for C3: with the initial submission rejecting ("boom"), nothing
is persisted and the store is unchanged. -/
theorem submitFlow_persists_only_on_success_witness :
    (submitFlow (some ⟨1, []⟩) "p" (some "k") (.error "boom") []
        (.netError "x") (.ok []) 0 none).persisted = none
  ∧ (submitFlow (some ⟨1, []⟩) "p" (some "k") (.error "boom") []
        (.netError "x") (.ok []) 0 none).db = some ⟨1, []⟩ :=
  (submitFlow_persists_only_on_success (some ⟨1, []⟩) "p" (some "k")
      (.error "boom") [] (.netError "x") (.ok []) 0 none).2.1 "boom" (by decide)

/-- C4: once `addVideoToLibrary` resolves, `getAllVideos` resolves to the
previous records followed by the newly stored record (which carries `r`'s
prompt, timestamp and blobs, hence identical byte-lengths); every record
present before the add is still present unchanged. -/
theorem store_add_roundTrip (s : Store) (r : VideoRecord) (s2 : Store)
    (h : addVideoToLibrary (some s) r = .ok s2) :
    ∃ l0 l, getAllVideos (some s) = .ok l0 ∧ getAllVideos (some s2) = .ok l
      ∧ l = l0 ++ [{ r with id := some s.nextId }]
      ∧ (∃ q, q ∈ l ∧ q.prompt = r.prompt ∧ q.timestamp = r.timestamp
           ∧ q.videoBlob.length = r.videoBlob.length
           ∧ q.thumbnailBlob.length = r.thumbnailBlob.length)
      ∧ (∀ q ∈ l0, q ∈ l) := by
  simp only [addVideoToLibrary, Except.ok.injEq] at h
  subst h
  refine ⟨s.records, s.records ++ [{ r with id := some s.nextId }],
    ?_, ?_, ?_, ?_, ?_⟩
  · rfl
  · rfl
  · rfl
  · exact ⟨{ r with id := some s.nextId },
      by simp, by simp, by simp, by simp, by simp⟩
  · exact fun q hq => by simp [hq]

/-- Witness for C4: a concrete add into a store holding one prior record. -/
theorem store_add_roundTrip_witness :
    ∃ l0 l,
      getAllVideos (some ⟨2, [⟨some 1, "old", [9], [8], 50⟩]⟩) = .ok l0
      ∧ getAllVideos (some ⟨3, [⟨some 1, "old", [9], [8], 50⟩,
            ⟨some 2, "p", [1], [2, 3], 5⟩]⟩) = .ok l
      ∧ l = l0 ++ [{ (⟨none, "p", [1], [2, 3], 5⟩ : VideoRecord) with
            id := some (2 : Nat) }]
      ∧ (∃ q, q ∈ l ∧ q.prompt = "p" ∧ q.timestamp = 5
           ∧ q.videoBlob.length = List.length [1]
           ∧ q.thumbnailBlob.length = List.length [2, 3])
      ∧ (∀ q ∈ l0, q ∈ l) :=
  store_add_roundTrip ⟨2, [⟨some 1, "old", [9], [8], 50⟩]⟩
    ⟨none, "p", [1], [2, 3], 5⟩
    ⟨3, [⟨some 1, "old", [9], [8], 50⟩, ⟨some 2, "p", [1], [2, 3], 5⟩]⟩ rfl

/-- C8: sorting with order "oldest" arranges records in non-decreasing
timestamp order, for every record list; in particular timestamps
[300, 100, 200] come back as [100, 200, 300]. -/
theorem sortVideos_oldest_sorted :
    (∀ vs : List VideoRecord,
       (sortVideos "oldest" vs).Pairwise (fun a b => a.timestamp ≤ b.timestamp))
  ∧ sortVideos "oldest"
      [⟨none, "a", [], [], 300⟩, ⟨none, "b", [], [], 100⟩,
       ⟨none, "c", [], [], 200⟩]
    = [⟨none, "b", [], [], 100⟩, ⟨none, "c", [], [], 200⟩,
       ⟨none, "a", [], [], 300⟩] := by
  constructor
  · intro vs
    have h : sortVideos "oldest" vs = List.insertionSort tsLe vs := by
      simp [sortVideos]
    rw [h]
    exact List.sorted_insertionSort tsLe vs
  · decide

/-- C10: over every store state, the `getAllVideos` of `src/unnamed/part_000`
returns exactly the reverse of what the `getAllVideos` of `src/index.tsx`
returns — the same multiset of records (a permutation), with the main
variant in insertion (key) order and the part_000 variant newest-first. -/
theorem getAllVideos_variants_agree :
    (∀ db, getAllVideosNewestFirst db = (getAllVideos db).map List.reverse)
  ∧ (∀ db l l2, getAllVideos db = .ok l → getAllVideosNewestFirst db = .ok l2 →
       l2.Perm l)
  ∧ (∀ s r s2, addVideoToLibrary (some s) r = .ok s2 →
       getAllVideos (some s2) = .ok (s.records ++ [{ r with id := some s.nextId }])
       ∧ getAllVideosNewestFirst (some s2)
           = .ok ({ r with id := some s.nextId } :: s.records.reverse)) := by
  refine ⟨?_, ?_, ?_⟩
  · intro db
    cases db <;> simp [getAllVideos, getAllVideosNewestFirst, Except.map]
  · intro db l l2 h1 h2
    cases db with
    | none => simp [getAllVideos] at h1
    | some s =>
      simp [getAllVideos] at h1
      simp [getAllVideosNewestFirst] at h2
      subst h1; subst h2
      exact s.records.reverse_perm
  · intro s r s2 h
    simp only [addVideoToLibrary, Except.ok.injEq] at h
    subst h
    constructor <;> simp [getAllVideos, getAllVideosNewestFirst]

/-- Witness for C10: a concrete two-record store — the main variant lists
insertion order, the part_000 variant the reverse. -/
theorem getAllVideos_variants_agree_witness :
    getAllVideos (some ⟨3, [⟨some 1, "a", [], [], 1⟩, ⟨some 2, "b", [], [], 2⟩]⟩)
        = .ok [⟨some 1, "a", [], [], 1⟩, ⟨some 2, "b", [], [], 2⟩]
  ∧ getAllVideosNewestFirst
        (some ⟨3, [⟨some 1, "a", [], [], 1⟩, ⟨some 2, "b", [], [], 2⟩]⟩)
      = .ok [⟨some 2, "b", [], [], 2⟩, ⟨some 1, "a", [], [], 1⟩] := by
  have h := (getAllVideos_variants_agree).2.2 ⟨2, [⟨some 1, "a", [], [], 1⟩]⟩
      ⟨none, "b", [], [], 2⟩
      ⟨3, [⟨some 1, "a", [], [], 1⟩, ⟨some 2, "b", [], [], 2⟩]⟩ rfl
  simpa using h

/-- C6 counterexample: the message "api key missing" contains the substring
"api key", yet the catch block does not map it to the invalid-API-key
friendly message (it also requires "not valid" or "invalid"): the raw
message is used. -/
theorem classifyError_api_key_not_always_friendly :
    containsSub (lowerStr "api key missing") "api key" = true
  ∧ classifyError "api key missing" none = "api key missing"
  ∧ ¬ (classifyError "api key missing" none = invalidKeyMsg) := by
  decide

/-- C6 as amended: the catch block classifies by case-insensitive substring
inspection — a message containing "api key" *and* ("not valid" or "invalid")
maps to the invalid-API-key friendly message; otherwise one containing
"quota" maps to the quota friendly message; otherwise the raw message is
parsed as JSON: on parse failure the raw text is used, on a parse producing
a truthy `error.message` that message is used, and on a parse without one
the initial generic unknown-error message remains. -/
theorem classifyError_classification (raw : String)
    (parsed : Option (Option String)) :
    ((containsSub (lowerStr raw) "api key"
        && (containsSub (lowerStr raw) "not valid"
            || containsSub (lowerStr raw) "invalid")) = true →
       classifyError raw parsed = invalidKeyMsg)
  ∧ ((containsSub (lowerStr raw) "api key"
        && (containsSub (lowerStr raw) "not valid"
            || containsSub (lowerStr raw) "invalid")) = false →
     containsSub (lowerStr raw) "quota" = true →
       classifyError raw parsed = quotaMsg)
  ∧ ((containsSub (lowerStr raw) "api key"
        && (containsSub (lowerStr raw) "not valid"
            || containsSub (lowerStr raw) "invalid")) = false →
     containsSub (lowerStr raw) "quota" = false →
       (parsed = none → classifyError raw parsed = raw)
       ∧ (∀ m, parsed = some (some m) → classifyError raw parsed = m)
       ∧ (parsed = some none → classifyError raw parsed = unknownErrorMsg)) := by
  refine ⟨fun h1 => by simp [classifyError, h1],
    fun h1 h2 => by simp [classifyError, h1, h2],
    fun h1 h2 =>
      ⟨fun hp => by simp [classifyError, h1, h2, hp],
       fun m hp => by simp [classifyError, h1, h2, hp],
       fun hp => by simp [classifyError, h1, h2, hp]⟩⟩

/-- Witness for C6 (amended): "API key is invalid" (case-insensitively
matching both "api key" and "invalid") maps to the friendly invalid-key
message; "quota exceeded" maps to the quota message; a plain unparsable
message falls back to itself. -/
theorem classifyError_classification_witness :
    classifyError "API key is invalid" none = invalidKeyMsg
  ∧ classifyError "quota exceeded" none = quotaMsg
  ∧ classifyError "plain failure" none = "plain failure" :=
  ⟨(classifyError_classification "API key is invalid" none).1 (by decide),
   (classifyError_classification "quota exceeded" none).2.1 (by decide) (by decide),
   ((classifyError_classification "plain failure" none).2.2 (by decide)
      (by decide)).1 rfl⟩

end VideoStudio
